import Mathlib

/-!
Verification development for the incident-triage backplane.

Shallow embedding of the alert-to-incident pipeline and the hybrid RAG
retrieval surfaces of the repository, together with proofs of the spec's
testable properties.  Database query results are modelled as explicit
inputs (lists of rows), the module configuration constants are fixed at
their documented environment defaults, Python floats are modelled by
rationals (reals only where a square root is taken), and Python truthiness
on nullable strings and lists is modelled explicitly.
-/

namespace IncidentTriage

/-! ## Data model (src/backend/app/models/database.py) -/

/-- The `SeverityLevel` enum: alert/incident severity levels. -/
inductive SeverityLevel
  | info
  | warning
  | error
  | critical
deriving DecidableEq, Repr

/-- The `SeverityLevel.value`, the string value of the str-enum. -/
def SeverityLevel.value : SeverityLevel → String
  | .info => "info"
  | .warning => "warning"
  | .error => "error"
  | .critical => "critical"

/-- The `IncidentStatus` enum: incident lifecycle statuses.  `open` is a Lean
keyword, so the first constructor carries a prime. -/
inductive IncidentStatus
  | open'
  | investigating
  | resolved
  | closed
deriving DecidableEq, Repr

/-- The `IncidentStatus.value`, the string value of the str-enum. -/
def IncidentStatus.value : IncidentStatus → String
  | .open' => "open"
  | .investigating => "investigating"
  | .resolved => "resolved"
  | .closed => "closed"

/-- The `ActionType` enum: audit-trail action types. -/
inductive ActionType
  | status_change
  | comment
  | alert_added
  | alert_removed
  | assignment
  | escalation
deriving DecidableEq, Repr

/-- Python truthiness of a nullable string (`None` and `""` are falsy). -/
def truthyStr : Option String → Bool
  | none => false
  | some s => s != ""

/-- Python `x or default` on a nullable string (`None` and `""` fall through). -/
def pyOrStr (v : Option String) (default : String) : String :=
  match v with
  | none => default
  | some s => if s == "" then default else s

/-! ## Status endpoint (src/backend/app/api/incidents.py) -/

/-- Incident row as touched by `update_incident_status`: lifecycle status and
the two lifecycle timestamps (timestamps as integer epoch seconds). -/
structure IncidentLifecycle where
  id : Nat
  status : IncidentStatus
  resolved_at : Option Int
  closed_at : Option Int
deriving DecidableEq, Repr

/-- The `IncidentAction` audit record as written by the endpoints and the worker. -/
structure ActionRec where
  incident_id : Nat
  action_type : ActionType
  description : String
  user : String
deriving DecidableEq, Repr

/-- The `ALLOWED_TRANSITIONS` from src/backend/app/api/incidents.py. -/
def ALLOWED_TRANSITIONS : IncidentStatus → List IncidentStatus
  | .open' => [.investigating]
  | .investigating => [.resolved]
  | .resolved => [.closed]
  | .closed => []

/-- Result of `PATCH /incidents/id/status`: the early no-change 200, the
updated incident plus the audit action it commits, or the 400 detail. -/
inductive StatusUpdateResult
  | noChange (incident_id : Nat)
  | updated (incident : IncidentLifecycle) (action : ActionRec)
  | badRequest (detail : String)
deriving DecidableEq, Repr

/-- The `update_incident_status` (src/backend/app/api/incidents.py, lines
292-333), for an existing incident.  `now` stands for `datetime.utcnow()`. -/
def update_incident_status (incident : IncidentLifecycle) (status : IncidentStatus)
    (now : Int) : StatusUpdateResult :=
  if incident.status = status then
    .noChange incident.id
  else if status ∈ ALLOWED_TRANSITIONS incident.status then
    let previous := incident.status
    .updated
      { incident with
        status := status
        resolved_at := if status = .resolved then some now else incident.resolved_at
        closed_at := if status = .closed then some now else incident.closed_at }
      { incident_id := incident.id
        action_type := .status_change
        description := "Status changed from " ++ previous.value ++ " to " ++ status.value
        user := "system" }
  else
    .badRequest ("Invalid status transition from " ++ incident.status.value
      ++ " to " ++ status.value)

/-- The three legal transitions of the status DAG, as the spec lists them. -/
def legalTransitionPairs : List (IncidentStatus × IncidentStatus) :=
  [(.open', .investigating), (.investigating, .resolved), (.resolved, .closed)]

/-- C2. On a status-update request whose requested status differs from the
current one, the transition succeeds iff the pair is one of
(open, investigating), (investigating, resolved), (resolved, closed); on
success a `status_change` action is written, `resolved_at` is set when the new
status is `resolved` and `closed_at` when it is `closed`; otherwise the request
fails with a 400 whose message names both the current and requested status. -/
theorem update_status_follows_dag (incident : IncidentLifecycle)
    (status : IncidentStatus) (now : Int) (hne : incident.status ≠ status) :
    ((incident.status, status) ∈ legalTransitionPairs ↔
      ∃ inc' act, update_incident_status incident status now = .updated inc' act) ∧
    (∀ inc' act, update_incident_status incident status now = .updated inc' act →
      act.action_type = .status_change ∧ act.incident_id = incident.id ∧
      inc'.status = status ∧
      (status = .resolved → inc'.resolved_at = some now) ∧
      (status = .closed → inc'.closed_at = some now)) ∧
    ((incident.status, status) ∉ legalTransitionPairs →
      update_incident_status incident status now =
        .badRequest ("Invalid status transition from " ++ incident.status.value
          ++ " to " ++ status.value)) := by
  obtain ⟨i, st, ra, ca⟩ := incident
  simp only [ne_eq] at hne
  cases st <;> cases status <;>
    simp_all [update_incident_status, ALLOWED_TRANSITIONS, legalTransitionPairs,
      IncidentStatus.value]

/-- Witness for C2 at a concrete input: investigating → resolved succeeds and
stamps `resolved_at`. -/
theorem update_status_follows_dag_witness :
    ((IncidentStatus.investigating, IncidentStatus.resolved) ∈ legalTransitionPairs ↔
      ∃ inc' act,
        update_incident_status ⟨7, .investigating, none, none⟩ .resolved 1000 =
          .updated inc' act) ∧
    (∀ inc' act,
      update_incident_status ⟨7, .investigating, none, none⟩ .resolved 1000 =
        .updated inc' act →
      act.action_type = .status_change ∧ act.incident_id = 7 ∧
      inc'.status = .resolved ∧
      (IncidentStatus.resolved = .resolved → inc'.resolved_at = some 1000) ∧
      (IncidentStatus.resolved = .closed → inc'.closed_at = some 1000)) ∧
    ((IncidentStatus.investigating, IncidentStatus.resolved) ∉ legalTransitionPairs →
      update_incident_status ⟨7, .investigating, none, none⟩ .resolved 1000 =
        .badRequest ("Invalid status transition from investigating to resolved")) :=
  update_status_follows_dag ⟨7, .investigating, none, none⟩ .resolved 1000 (by decide)

/-- C10. A status-update request whose requested status equals the current
one (including `resolved` and `closed`) short-circuits to the `no_change` 200:
the incident is untouched, no action is written, and it is never a 400. -/
theorem update_status_same_status_no_change (incident : IncidentLifecycle)
    (now : Int) :
    update_incident_status incident incident.status now = .noChange incident.id ∧
    (∀ d, update_incident_status incident incident.status now ≠ .badRequest d) := by
  constructor
  · simp [update_incident_status]
  · intro d
    simp [update_incident_status]

/-- Witness for C10 at a concrete input: requesting `closed` on an already
closed incident is the no-change 200, never a 400. -/
theorem update_status_same_status_no_change_witness :
    update_incident_status ⟨3, .closed, none, some 55⟩ IncidentStatus.closed 99 =
      .noChange 3 ∧
    (∀ d, update_incident_status ⟨3, .closed, none, some 55⟩ IncidentStatus.closed 99 ≠
      .badRequest d) :=
  update_status_same_status_no_change ⟨3, .closed, none, some 55⟩ 99

/-! ## Chat stream (src/backend/app/api/chat.py) -/

/-- Server-sent events emitted by `chat_stream`'s `event_stream` generator. -/
inductive ChatEvent
  | tool (status : String)
  | assistantDelta (id : String) (delta : String)
  | assistant (id : String) (content : String)
  | error (msg : String)
  | done (ok : Bool)
deriving DecidableEq, Repr

/-- Outcome of the body of the `try:` block in `event_stream`: either
`build_chat_context` raises (with the exception's message), or it succeeds and
`stream_assistant_deltas` yields `ds` and then either raises (after those
deltas) or finishes cleanly. -/
inductive StreamRun
  | ctxError (msg : String)
  | deltas (ds : List String) (streamError : Option String)
deriving DecidableEq, Repr

/-- Whether the run raises anywhere inside the `try:` block.  The empty
concatenated message raises `RuntimeError("LLM stream returned no content")`
which the same `except` clause catches. -/
def streamRunFails : StreamRun → Bool
  | .ctxError _ => true
  | .deltas ds streamError => streamError.isSome || ((String.join ds).trim == "")

/-- The `event_stream` (src/backend/app/api/chat.py, lines 38-84) for an existing
incident: the ordered event sequence the generator yields.  `messageId` is the
per-call unique assistant-message id. -/
def event_stream (messageId : String) (run : StreamRun) : List ChatEvent :=
  ChatEvent.tool "running" ::
    match run with
    | .ctxError m => [.tool "failed", .error m, .done false]
    | .deltas ds streamError =>
        let emitted := ds.map (fun d => ChatEvent.assistantDelta messageId d)
        match streamError with
        | some m => emitted ++ [.tool "failed", .error m, .done false]
        | none =>
            let assistant_message := (String.join ds).trim
            if assistant_message == "" then
              emitted ++ [.tool "failed",
                .error "LLM stream returned no content", .done false]
            else
              emitted ++ [.assistant messageId assistant_message,
                .tool "done", .done true]

/-- Count of terminal `done` events in an event list. -/
def doneCount (es : List ChatEvent) : Nat :=
  (es.filter fun e => match e with | .done _ => true | _ => false).length

/-- C1. On any failure during context build or delta streaming (including
after deltas were emitted) the stream ends with the trio
`tool{failed}`, `error{message}`, `done{ok:false}` and never contains
`done{ok:true}`; every stream contains exactly one terminal `done` event, and
it matches the true outcome (`ok:true` exactly on non-failing runs). -/
theorem chat_stream_failure_contract (messageId : String) (run : StreamRun) :
    doneCount (event_stream messageId run) = 1 ∧
    (streamRunFails run = true →
      (∃ m pre, event_stream messageId run =
        pre ++ [.tool "failed", .error m, .done false]) ∧
      ChatEvent.done true ∉ event_stream messageId run) ∧
    (streamRunFails run = false →
      (event_stream messageId run).getLast? = some (.done true) ∧
      ChatEvent.done false ∉ event_stream messageId run) := by
  cases run with
  | ctxError m =>
      refine ⟨by simp [event_stream, doneCount], fun _ => ⟨⟨m, [.tool "running"], by
        simp [event_stream]⟩, by simp [event_stream]⟩, fun h => by
        simp [streamRunFails] at h⟩
  | deltas ds streamError =>
      cases streamError with
      | some m =>
          refine ⟨?_, fun _ => ⟨⟨m, .tool "running" ::
              ds.map (fun d => ChatEvent.assistantDelta messageId d), by
            simp [event_stream]⟩, ?_⟩, fun h => by simp [streamRunFails] at h⟩
          · simp only [event_stream, doneCount, List.filter_cons, List.filter_append,
              List.filter_map]
            simp [List.filter_eq_nil_iff]
          · simp [event_stream]
      | none =>
          by_cases hmsg : (String.join ds).trim == ""
          · refine ⟨?_, fun _ => ⟨⟨"LLM stream returned no content", .tool "running" ::
                ds.map (fun d => ChatEvent.assistantDelta messageId d), by
              simp [event_stream, hmsg]⟩, ?_⟩, fun h => by
              simp [streamRunFails, hmsg] at h⟩
            · simp only [event_stream, hmsg, if_pos, doneCount, List.filter_cons,
                List.filter_append, List.filter_map]
              simp [List.filter_eq_nil_iff]
            · simp [event_stream, hmsg]
          · refine ⟨?_, fun h => by simp [streamRunFails, hmsg] at h, fun _ => ⟨?_, ?_⟩⟩
            · simp only [event_stream, hmsg, if_neg, doneCount, List.filter_cons,
                List.filter_append, List.filter_map]
              simp [List.filter_eq_nil_iff]
            · have hrw : event_stream messageId (.deltas ds none) =
                (ChatEvent.tool "running" ::
                  (ds.map (fun d => ChatEvent.assistantDelta messageId d) ++
                    [.assistant messageId (String.join ds).trim, .tool "done"])) ++
                  [.done true] := by
                simp [event_stream, hmsg]
              rw [hrw, List.getLast?_concat]
            · simp [event_stream, hmsg]

/-- Witness for C1 at the spec's scenario 6: one delta "partial " then a
mid-stream error yields the failure trio and exactly one `done`. -/
theorem chat_stream_failure_contract_witness :
    doneCount (event_stream "assistant-1" (.deltas ["partial "] (some "boom"))) = 1 ∧
    (∃ m pre, event_stream "assistant-1" (.deltas ["partial "] (some "boom")) =
      pre ++ [.tool "failed", .error m, .done false]) ∧
    ChatEvent.done true ∉ event_stream "assistant-1" (.deltas ["partial "] (some "boom")) := by
  have h := chat_stream_failure_contract "assistant-1" (.deltas ["partial "] (some "boom"))
  exact ⟨h.1, (h.2.1 (by decide)).1, (h.2.1 (by decide)).2⟩

/-! ## Grouping engine (src/backend/app/workers/tasks.py) -/

/-- Alert row with the fields the worker pipeline reads and writes.
Timestamps are integer epoch seconds; nullable columns are `Option`. -/
structure AlertRec where
  id : Nat
  external_id : String
  source : String
  title : String
  message : String
  alert_timestamp : Int
  severity : Option SeverityLevel
  predicted_team : Option String
  confidence_score : Option ℚ
  classification_source : Option String
  service_name : Option String
  incident_id : Option Nat
deriving DecidableEq, Repr

/-- Incident row with the fields grouping and retrieval read and write. -/
structure IncidentRow where
  id : Nat
  title : String
  severity : SeverityLevel
  assigned_team : String
  status : IncidentStatus
  affected_services : List String
  summary : Option String
  created_at : Int
  updated_at : Int
deriving DecidableEq, Repr

/-- The `recent_incidents` query of `group_alerts_into_incidents`
(src/backend/app/workers/tasks.py, lines 252-262): incidents with status OPEN
or INVESTIGATING and `created_at >= alert_timestamp - 5 minutes`, ordered by
`created_at` descending.  300 seconds model `timedelta(minutes=5)`. -/
def candidate_incidents (incidents : List IncidentRow) (alert_timestamp : Int) :
    List IncidentRow :=
  (incidents.filter fun i =>
      (i.status == .open' || i.status == .investigating) &&
        decide (alert_timestamp - 300 ≤ i.created_at)).mergeSort
    (fun a b => decide (b.created_at ≤ a.created_at))

/-- Outcome of grouping: the alert attached to an existing incident, or a new
incident created; each carries the updated rows and the audit action. -/
inductive GroupResult
  | attached (incident : IncidentRow) (alert : AlertRec) (action : ActionRec)
  | created (incident : IncidentRow) (alert : AlertRec) (action : ActionRec)
deriving DecidableEq, Repr

/-- The `group_alerts_into_incidents` (src/backend/app/workers/tasks.py, lines
226-344).  `newId` stands for the id the database assigns on flush and `now`
for `datetime.now(timezone.utc)`.  Python truthiness on `alert.service_name`
and `alert.predicted_team` (empty string falsy) is modelled explicitly. -/
def group_alerts_into_incidents (incidents : List IncidentRow) (alert : AlertRec)
    (newId : Nat) (now : Int) : GroupResult :=
  match candidate_incidents incidents alert.alert_timestamp with
  | incident :: _ =>
      let affected :=
        match alert.service_name with
        | some s =>
            if s != "" && !(incident.affected_services.contains s) then
              incident.affected_services ++ [s]
            else incident.affected_services
        | none => incident.affected_services
      .attached
        { incident with updated_at := now, affected_services := affected }
        { alert with incident_id := some incident.id }
        { incident_id := incident.id
          action_type := .alert_added
          description := "Alert " ++ alert.external_id ++ " (" ++ alert.title
            ++ ") grouped into incident"
          user := "system" }
  | [] =>
      .created
        { id := newId
          title := alert.title
          severity := alert.severity.getD .warning
          assigned_team := pyOrStr alert.predicted_team "unassigned"
          status := .open'
          affected_services :=
            match alert.service_name with
            | some s => if s != "" then [s] else []
            | none => []
          summary := none
          created_at := now
          updated_at := now }
        { alert with incident_id := some newId }
        { incident_id := newId
          action_type := .status_change
          description := "Incident created from alert " ++ alert.external_id
          user := "system" }

/-- C3. The candidates considered for attachment are exactly the incidents
with status open or investigating and `created_at ≥ alert_timestamp − 5 min`
(the boundary included); when at least one candidate exists the alert is
attached to a candidate whose `created_at` is maximal among the candidates;
when none exists a new incident is created. -/
theorem grouping_window_and_tiebreak (incidents : List IncidentRow)
    (alert : AlertRec) (newId : Nat) (now : Int) :
    (∀ i, i ∈ candidate_incidents incidents alert.alert_timestamp ↔
      i ∈ incidents ∧ (i.status = .open' ∨ i.status = .investigating) ∧
        alert.alert_timestamp - 300 ≤ i.created_at) ∧
    (∀ c rest, candidate_incidents incidents alert.alert_timestamp = c :: rest →
      (∀ i ∈ candidate_incidents incidents alert.alert_timestamp,
        i.created_at ≤ c.created_at) ∧
      ∃ inc' alert' act,
        group_alerts_into_incidents incidents alert newId now =
          .attached inc' alert' act ∧ inc'.id = c.id ∧
          alert'.incident_id = some c.id) ∧
    (candidate_incidents incidents alert.alert_timestamp = [] →
      ∃ inc' alert' act,
        group_alerts_into_incidents incidents alert newId now =
          .created inc' alert' act) := by
  refine ⟨?_, ?_, ?_⟩
  · intro i
    simp [candidate_incidents, List.mem_mergeSort, List.mem_filter]
  · intro c rest hc
    have hsorted := @List.sorted_mergeSort IncidentRow
      (fun a b => decide (b.created_at ≤ a.created_at))
      (fun a b d hab hbd => by
        simp only [decide_eq_true_eq] at *
        exact le_trans hbd hab)
      (fun a b => by
        rcases le_total a.created_at b.created_at with h | h <;> simp [h])
      (incidents.filter fun i =>
        (i.status == .open' || i.status == .investigating) &&
          decide (alert.alert_timestamp - 300 ≤ i.created_at))
    rw [show (incidents.filter fun i =>
        (i.status == .open' || i.status == .investigating) &&
          decide (alert.alert_timestamp - 300 ≤ i.created_at)).mergeSort
        (fun a b => decide (b.created_at ≤ a.created_at)) =
        candidate_incidents incidents alert.alert_timestamp from rfl, hc] at hsorted
    constructor
    · intro i hi
      rw [hc] at hi
      rcases List.mem_cons.mp hi with rfl | hi
      · exact le_refl _
      · have := (List.pairwise_cons.mp hsorted).1 i hi
        simpa using this
    · refine ⟨{ c with updated_at := now, affected_services :=
          match alert.service_name with
          | some s =>
              if s != "" && !(c.affected_services.contains s) then
                c.affected_services ++ [s]
              else c.affected_services
          | none => c.affected_services },
        { alert with incident_id := some c.id },
        { incident_id := c.id
          action_type := .alert_added
          description := "Alert " ++ alert.external_id ++ " (" ++ alert.title
            ++ ") grouped into incident"
          user := "system" }, ?_, rfl, rfl⟩
      simp only [group_alerts_into_incidents, hc]
  · intro hnil
    refine ⟨{ id := newId
              title := alert.title
              severity := alert.severity.getD .warning
              assigned_team := pyOrStr alert.predicted_team "unassigned"
              status := .open'
              affected_services :=
                match alert.service_name with
                | some s => if s != "" then [s] else []
                | none => []
              summary := none
              created_at := now
              updated_at := now },
        { alert with incident_id := some newId },
        { incident_id := newId
          action_type := .status_change
          description := "Incident created from alert " ++ alert.external_id
          user := "system" }, ?_⟩
    simp only [group_alerts_into_incidents, hnil]

/-- Witness for C3 at the window boundary: with `alert_timestamp = 1000`, an
open incident created exactly at 700 (= 1000 − 300) is a candidate, one
created at 699 is not, and the alert attaches to the most recent candidate. -/
theorem grouping_window_and_tiebreak_witness :
    (⟨1, "a", .warning, "t", .open', [], none, 700, 700⟩ : IncidentRow) ∈
      candidate_incidents
        [⟨1, "a", .warning, "t", .open', [], none, 700, 700⟩,
         ⟨2, "b", .warning, "t", .open', [], none, 699, 699⟩] 1000 ∧
    (⟨2, "b", .warning, "t", .open', [], none, 699, 699⟩ : IncidentRow) ∉
      candidate_incidents
        [⟨1, "a", .warning, "t", .open', [], none, 700, 700⟩,
         ⟨2, "b", .warning, "t", .open', [], none, 699, 699⟩] 1000 ∧
    ∃ inc' alert' act,
      group_alerts_into_incidents
        [⟨1, "a", .warning, "t", .open', [], none, 700, 700⟩,
         ⟨2, "b", .warning, "t", .open', [], none, 699, 699⟩]
        ⟨10, "x10", "datadog", "db down", "", 1000, none, none, none, none, none, none⟩
        9 2000 = .attached inc' alert' act ∧ inc'.id = 1 ∧
        alert'.incident_id = some 1 := by
  have h := grouping_window_and_tiebreak
    [⟨1, "a", .warning, "t", .open', [], none, 700, 700⟩,
     ⟨2, "b", .warning, "t", .open', [], none, 699, 699⟩]
    ⟨10, "x10", "datadog", "db down", "", 1000, none, none, none, none, none, none⟩
    9 2000
  refine ⟨(h.1 _).mpr (by refine ⟨by simp, by simp, by norm_num⟩), ?_, ?_⟩
  · intro hmem
    have := ((h.1 _).mp hmem).2.2
    norm_num at this
  · exact (h.2.1 ⟨1, "a", .warning, "t", .open', [], none, 700, 700⟩ []
      (by simp [candidate_incidents, List.mergeSort])).2

/-- C8 (amended). When grouping finds no candidate it creates an incident
with `title = alert.title`, `severity = alert.severity or warning`,
`assigned_team = alert.predicted_team or "unassigned"`, `status = open`, and
`affected_services = [alert.service_name]` when the service name is non-null
and non-empty, else `[]` — Python truthiness, so an empty-string
`predicted_team` or `service_name` falls back like null does; it links the
alert and writes a `status_change` action describing the creation. -/
theorem grouping_creation_fields (incidents : List IncidentRow) (alert : AlertRec)
    (newId : Nat) (now : Int)
    (h : candidate_incidents incidents alert.alert_timestamp = []) :
    ∃ inc' alert' act,
      group_alerts_into_incidents incidents alert newId now =
        .created inc' alert' act ∧
      inc'.id = newId ∧
      inc'.title = alert.title ∧
      inc'.severity = alert.severity.getD .warning ∧
      inc'.assigned_team = pyOrStr alert.predicted_team "unassigned" ∧
      inc'.status = .open' ∧
      inc'.affected_services = (match alert.service_name with
        | some s => if s != "" then [s] else []
        | none => []) ∧
      alert' = { alert with incident_id := some newId } ∧
      act = { incident_id := newId, action_type := .status_change,
              description := "Incident created from alert " ++ alert.external_id,
              user := "system" } := by
  refine ⟨{ id := newId
            title := alert.title
            severity := alert.severity.getD .warning
            assigned_team := pyOrStr alert.predicted_team "unassigned"
            status := .open'
            affected_services :=
              match alert.service_name with
              | some s => if s != "" then [s] else []
              | none => []
            summary := none
            created_at := now
            updated_at := now },
      { alert with incident_id := some newId },
      { incident_id := newId
        action_type := .status_change
        description := "Incident created from alert " ++ alert.external_id
        user := "system" }, ?_, rfl, rfl, rfl, rfl, rfl, rfl, rfl, rfl⟩
  simp only [group_alerts_into_incidents, h]

/-- Witness for C8 at a concrete no-candidate input. -/
theorem grouping_creation_fields_witness :
    candidate_incidents [] (1000 : Int) = [] ∧
    ∃ inc' alert' act,
      group_alerts_into_incidents []
        ⟨10, "x10", "datadog", "db down", "", 1000, some .critical, some "sre",
          none, some "rule", some "db", none⟩ 9 2000 =
        .created inc' alert' act ∧
      inc'.id = 9 ∧
      inc'.title = "db down" ∧
      inc'.severity = SeverityLevel.critical ∧
      inc'.assigned_team = "sre" ∧
      inc'.status = .open' ∧
      inc'.affected_services = ["db"] := by
  have h := grouping_creation_fields []
    ⟨10, "x10", "datadog", "db down", "", 1000, some .critical, some "sre",
      none, some "rule", some "db", none⟩ 9 2000 (by simp [candidate_incidents])
  obtain ⟨inc', alert', act, heq, hid, hti, hsev, hteam, hst, hserv, -, -⟩ := h
  exact ⟨by simp [candidate_incidents], inc', alert', act, heq, hid, hti, hsev,
    by simpa [pyOrStr] using hteam, hst, by simpa using hserv⟩

/-- The creation rule exactly as claim C8 words it: `assigned_team` is the
predicted team whenever it is non-null, and `affected_services` is
`[service_name]` whenever the service name is non-null (no empty-string
exception).  Only the two assignment conjuncts of the claim are stated; the
full claim implies this, so refuting this refutes the claim. -/
def C8ClaimedCreation (incidents : List IncidentRow) (alert : AlertRec)
    (newId : Nat) (now : Int) : Prop :=
  ∃ inc' alert' act,
    group_alerts_into_incidents incidents alert newId now =
      .created inc' alert' act ∧
    inc'.assigned_team = (match alert.predicted_team with
      | some t => t
      | none => "unassigned") ∧
    inc'.affected_services = (match alert.service_name with
      | some s => [s]
      | none => [])

/-- Counterexample to C8 as stated: for an alert whose `predicted_team` and
`service_name` are the non-null empty string, the created incident has
`assigned_team = "unassigned"` (not `""`) and `affected_services = []`
(not `[""]`), because Python's `or` and `if` treat `""` as falsy. -/
theorem grouping_creation_truthiness_counterexample :
    ¬ C8ClaimedCreation []
      ⟨10, "x10", "datadog", "db down", "", 1000, none, some "", none, none,
        some "", none⟩ 7 100 := by
  intro h
  obtain ⟨inc', alert', act, heq, hteam, hserv⟩ := h
  have hc0 : candidate_incidents []
      (⟨10, "x10", "datadog", "db down", "", 1000, none, some "", none, none,
        some "", none⟩ : AlertRec).alert_timestamp = [] := by
    simp [candidate_incidents]
  have hrun : group_alerts_into_incidents []
      ⟨10, "x10", "datadog", "db down", "", 1000, none, some "", none, none,
        some "", none⟩ 7 100 =
      .created
        ⟨7, "db down", .warning, "unassigned", .open', [], none, 100, 100⟩
        ⟨10, "x10", "datadog", "db down", "", 1000, none, some "", none, none,
          some "", some 7⟩
        ⟨7, .status_change, "Incident created from alert x10", "system"⟩ := by
    simp only [group_alerts_into_incidents, hc0]
    simp [pyOrStr]
  rw [hrun] at heq
  simp only [GroupResult.created.injEq] at heq
  obtain ⟨h1, -, -⟩ := heq
  rw [← h1] at hteam
  simp at hteam

/-! ## Webhook intake (src/backend/app/services/webhook_processor.py and
src/backend/app/api/webhooks.py) -/

/-- Datadog webhook payload fields read by `_parse_datadog_alert`.  `none`
models an absent key; Python's `str()` coercion of the id is absorbed into
modelling it as a string.  The raw payload is retained verbatim on the
created row in the source; it plays no role in the claims and is omitted. -/
structure DatadogPayload where
  id : Option String
  title : Option String
  body : Option String
  last_updated : Option String
  tags : List String
deriving DecidableEq, Repr

/-- Standardized fields `_parse_datadog_alert` returns. -/
structure ParsedAlertData where
  external_id : String
  title : String
  message : String
  timestamp : Int
deriving DecidableEq, Repr

/-- The `_parse_datadog_alert` (src/backend/app/services/webhook_processor.py,
lines 140-185).  `parseIso` models `datetime.fromisoformat` (`none` for an
unparseable string, in which case `now` is used), `now` models
`datetime.now(timezone.utc)`.  `if not external_id` is Python truthiness:
an absent or empty id raises `ValueError`. -/
def _parse_datadog_alert (payload : DatadogPayload) (parseIso : String → Option Int)
    (now : Int) : Except String ParsedAlertData :=
  match payload.id with
  | none => .error "Missing 'id' field in Datadog payload"
  | some external_id =>
      if external_id == "" then .error "Missing 'id' field in Datadog payload"
      else
        .ok
          { external_id := external_id
            title := String.mk ((payload.title.getD "Datadog Alert").toList.take 500)
            message := payload.body.getD ""
            timestamp :=
              match payload.last_updated with
              | some s => (parseIso s).getD now
              | none => now }

/-- The `WebhookProcessor.process_datadog_webhook` (lines 23-81): parse, look up
an existing alert by `(source, external_id)`, and either return it with the
database unchanged or insert a new un-enriched row.  The database is the list
of alert rows; `nextId` is the id the database would assign. -/
def process_datadog_webhook (db : List AlertRec) (payload : DatadogPayload)
    (parseIso : String → Option Int) (now : Int) (nextId : Nat) :
    Except String (AlertRec × List AlertRec) :=
  match _parse_datadog_alert payload parseIso now with
  | .error e => .error e
  | .ok d =>
      match db.find? (fun a => a.source == "datadog" && a.external_id == d.external_id) with
      | some existing => .ok (existing, db)
      | none =>
          let alert : AlertRec :=
            { id := nextId
              external_id := d.external_id
              source := "datadog"
              title := d.title
              message := d.message
              alert_timestamp := d.timestamp
              severity := none
              predicted_team := none
              confidence_score := none
              classification_source := none
              service_name := none
              incident_id := none }
          .ok (alert, db ++ [alert])

/-- The 200 body of the webhook endpoints. -/
structure WebhookResponse where
  status : String
  alert_id : Nat
  external_id : String
deriving DecidableEq, Repr

/-- The `datadog_webhook` (src/backend/app/api/webhooks.py, lines 24-88) after
signature verification and JSON decoding: process the payload, then
unconditionally enqueue `process_alert.delay(alert.id)` (line 70) — also for
a deduplicated alert.  Result: the 200 response, the new database state, and
the list of alert ids enqueued by this request; a `ValueError` becomes an
`Except.error` (the 400 path). -/
def datadog_webhook (db : List AlertRec) (payload : DatadogPayload)
    (parseIso : String → Option Int) (now : Int) (nextId : Nat) :
    Except String (WebhookResponse × List AlertRec × List Nat) :=
  match process_datadog_webhook db payload parseIso now nextId with
  | .error e => .error e
  | .ok (alert, db') =>
      .ok ({ status := "received", alert_id := alert.id, external_id := alert.external_id },
        db', [alert.id])

/-- The `n` sequential ingestions of the same payload, threading the database
state and collecting the per-request results. -/
def ingest_times (payload : DatadogPayload) (parseIso : String → Option Int)
    (now : Int) (nextId : Nat) :
    Nat → List AlertRec → List (Except String WebhookResponse) × List AlertRec
  | 0, db => ([], db)
  | Nat.succ n, db =>
      match datadog_webhook db payload parseIso now nextId with
      | .error e =>
          let r := ingest_times payload parseIso now nextId n db
          (.error e :: r.1, r.2)
      | .ok (resp, db', _) =>
          let r := ingest_times payload parseIso now nextId n db'
          (.ok resp :: r.1, r.2)

/-- C4 (amended). For a payload whose `(source, external_id)` matches a
stored alert, intake returns that alert unchanged — no field modified, no new
row — and ingesting the same payload repeatedly yields exactly one stored
alert and identical 200 responses carrying the same `alert_id`; however the
endpoint enqueues a `process_alert` task for the returned alert on every
request, duplicates included, rather than skipping the re-enqueue. -/
theorem webhook_dedup_idempotent (db : List AlertRec) (payload : DatadogPayload)
    (parseIso : String → Option Int) (now : Int) (nextId : Nat)
    (d : ParsedAlertData) (existing : AlertRec)
    (hparse : _parse_datadog_alert payload parseIso now = .ok d) :
    (db.find? (fun a => a.source == "datadog" && a.external_id == d.external_id) =
        some existing →
      process_datadog_webhook db payload parseIso now nextId = .ok (existing, db) ∧
      datadog_webhook db payload parseIso now nextId =
        .ok ({ status := "received", alert_id := existing.id,
               external_id := existing.external_id }, db, [existing.id]) ∧
      ∀ n, ingest_times payload parseIso now nextId n db =
        (List.replicate n
          (.ok { status := "received"
                 alert_id := existing.id
                 external_id := existing.external_id }), db)) ∧
    (db.find? (fun a => a.source == "datadog" && a.external_id == d.external_id) =
        none →
      ∀ n, ingest_times payload parseIso now nextId (n + 1) db =
        (List.replicate (n + 1)
          (.ok { status := "received"
                 alert_id := nextId
                 external_id := d.external_id }),
         db ++ [{ id := nextId, external_id := d.external_id, source := "datadog",
                  title := d.title, message := d.message,
                  alert_timestamp := d.timestamp, severity := none,
                  predicted_team := none, confidence_score := none,
                  classification_source := none, service_name := none,
                  incident_id := none }])) := by
  have hdup : ∀ (db2 : List AlertRec) ex, db2.find?
      (fun a => a.source == "datadog" && a.external_id == d.external_id) = some ex →
      process_datadog_webhook db2 payload parseIso now nextId = .ok (ex, db2) ∧
      datadog_webhook db2 payload parseIso now nextId =
        .ok ({ status := "received", alert_id := ex.id,
               external_id := ex.external_id }, db2, [ex.id]) := by
    intro db2 ex hfind
    have hp : process_datadog_webhook db2 payload parseIso now nextId = .ok (ex, db2) := by
      simp only [process_datadog_webhook, hparse, hfind]
    exact ⟨hp, by simp only [datadog_webhook, hp]⟩
  constructor
  · intro hfind
    obtain ⟨hp, hw⟩ := hdup db existing hfind
    refine ⟨hp, hw, ?_⟩
    intro n
    induction n with
    | zero => simp [ingest_times]
    | succ n ih => simp [ingest_times, hw, ih, List.replicate_succ]
  · intro hnone n
    have hp : process_datadog_webhook db payload parseIso now nextId =
        .ok ({ id := nextId, external_id := d.external_id, source := "datadog",
               title := d.title, message := d.message,
               alert_timestamp := d.timestamp, severity := none,
               predicted_team := none, confidence_score := none,
               classification_source := none, service_name := none,
               incident_id := none },
          db ++ [{ id := nextId, external_id := d.external_id, source := "datadog",
                   title := d.title, message := d.message,
                   alert_timestamp := d.timestamp, severity := none,
                   predicted_team := none, confidence_score := none,
                   classification_source := none, service_name := none,
                   incident_id := none }]) := by
      simp only [process_datadog_webhook, hparse, hnone]
    have hw : datadog_webhook db payload parseIso now nextId =
        .ok ({ status := "received", alert_id := nextId,
               external_id := d.external_id },
          db ++ [{ id := nextId, external_id := d.external_id, source := "datadog",
                   title := d.title, message := d.message,
                   alert_timestamp := d.timestamp, severity := none,
                   predicted_team := none, confidence_score := none,
                   classification_source := none, service_name := none,
                   incident_id := none }], [nextId]) := by
      simp only [datadog_webhook, hp]
    have hfind2 : (db ++
        [({ id := nextId, external_id := d.external_id, source := "datadog",
            title := d.title, message := d.message,
            alert_timestamp := d.timestamp, severity := none,
            predicted_team := none, confidence_score := none,
            classification_source := none, service_name := none,
            incident_id := none } : AlertRec)]).find?
        (fun a => a.source == "datadog" && a.external_id == d.external_id) =
        some { id := nextId, external_id := d.external_id, source := "datadog",
               title := d.title, message := d.message,
               alert_timestamp := d.timestamp, severity := none,
               predicted_team := none, confidence_score := none,
               classification_source := none, service_name := none,
               incident_id := none } := by
      rw [List.find?_append, hnone]
      simp
    simp only [ingest_times, hw, List.replicate_succ]
    have htail : ∀ m, ingest_times payload parseIso now nextId m
        (db ++ [{ id := nextId, external_id := d.external_id, source := "datadog",
                  title := d.title, message := d.message,
                  alert_timestamp := d.timestamp, severity := none,
                  predicted_team := none, confidence_score := none,
                  classification_source := none, service_name := none,
                  incident_id := none }]) =
        (List.replicate m
          (.ok { status := "received"
                 alert_id := nextId
                 external_id := d.external_id }),
         db ++ [{ id := nextId, external_id := d.external_id, source := "datadog",
                  title := d.title, message := d.message,
                  alert_timestamp := d.timestamp, severity := none,
                  predicted_team := none, confidence_score := none,
                  classification_source := none, service_name := none,
                  incident_id := none }]) := by
      intro m
      induction m with
      | zero => simp [ingest_times]
      | succ m ih =>
          have hw2 := (hdup _ _ hfind2).2
          simp only [ingest_times, hw2, ih, List.replicate_succ]
    simp [htail n]

/-- Witness for C4: a concrete duplicate ingestion returns the stored alert's
id, leaves the database unchanged, and three repeats give three identical
responses. -/
theorem webhook_dedup_idempotent_witness :
    process_datadog_webhook
      [⟨1, "A1", "datadog", "High CPU", "CPU > 80", 0, none, none, none, none,
        none, none⟩]
      ⟨some "A1", some "High CPU", some "CPU > 80", none, []⟩
      (fun _ => none) 0 2 =
      .ok (⟨1, "A1", "datadog", "High CPU", "CPU > 80", 0, none, none, none,
        none, none, none⟩,
        [⟨1, "A1", "datadog", "High CPU", "CPU > 80", 0, none, none, none, none,
          none, none⟩]) ∧
    ingest_times ⟨some "A1", some "High CPU", some "CPU > 80", none, []⟩
      (fun _ => none) 0 2 3
      [⟨1, "A1", "datadog", "High CPU", "CPU > 80", 0, none, none, none, none,
        none, none⟩] =
      (List.replicate 3 (.ok ⟨"received", 1, "A1"⟩),
       [⟨1, "A1", "datadog", "High CPU", "CPU > 80", 0, none, none, none, none,
         none, none⟩]) := by
  have h := webhook_dedup_idempotent
    [⟨1, "A1", "datadog", "High CPU", "CPU > 80", 0, none, none, none, none,
      none, none⟩]
    ⟨some "A1", some "High CPU", some "CPU > 80", none, []⟩
    (fun _ => none) 0 2 ⟨"A1", "High CPU", "CPU > 80", 0⟩
    ⟨1, "A1", "datadog", "High CPU", "CPU > 80", 0, none, none, none, none,
      none, none⟩ rfl
  exact ⟨(h.1 (by decide)).1, (h.1 (by decide)).2.2 3⟩

/-- Counterexample to C4 as stated: the duplicate request's enqueue list is
`[1]`, not empty — the endpoint re-enqueues `process_alert` for the existing
alert (src/backend/app/api/webhooks.py, line 70 runs unconditionally). -/
theorem webhook_duplicate_reenqueued_counterexample :
    datadog_webhook
      [⟨1, "A1", "datadog", "High CPU", "CPU > 80", 0, none, none, none, none,
        none, none⟩]
      ⟨some "A1", some "High CPU", some "CPU > 80", none, []⟩
      (fun _ => none) 0 2 =
      .ok (⟨"received", 1, "A1"⟩,
        [⟨1, "A1", "datadog", "High CPU", "CPU > 80", 0, none, none, none, none,
          none, none⟩], [1]) ∧
    ([1] : List Nat) ≠ [] := by
  exact ⟨rfl, by decide⟩

/-! ## Classification step of the processor (src/backend/app/workers/tasks.py,
lines 66-94) -/

/-- A JSON value, as `response.json()` can return it. -/
inductive JVal
  | null
  | bool (b : Bool)
  | num (q : ℚ)
  | str (s : String)
  | arr (n : Nat)
  | obj (fields : List (String × JVal))

/-- Python exception classes relevant to the classification step. -/
inductive PyErr
  | requestException
  | keyError
  | valueError
  | typeError
  | attributeError
deriving DecidableEq, Repr

/-- Outcome of `requests.post(... /classify ...)`: a transport-level failure
(connection error or the 5-second deadline, both `requests.RequestException`
subclasses) or an HTTP response whose body either fails JSON decoding
(`response.json()` raises a `ValueError` subclass) or decodes to a value. -/
inductive MLCallResult
  | transportError
  | response (statusCode : Nat) (body : Option JVal)

/-- Dict lookup `fields["k"]` on a decoded JSON object. -/
def lookupField (fields : List (String × JVal)) (k : String) : Option JVal :=
  (fields.find? (fun p => p.1 == k)).map (fun p => p.2)

/-- The `SeverityLevel[name]` (Python `Enum.__getitem__` by member name). -/
def severityFromName (name : String) : Option SeverityLevel :=
  if name == "INFO" then some .info
  else if name == "WARNING" then some .warning
  else if name == "ERROR" then some .error
  else if name == "CRITICAL" then some .critical
  else none

/-- Python `f"{v:.2f}"` applied to a JSON value: floats and ints (and bools,
which are ints) format; a string raises `ValueError`; `None`, lists and dicts
raise `TypeError`. -/
def formatFixed2 : JVal → Except PyErr Unit
  | .num _ => .ok ()
  | .bool _ => .ok ()
  | .str _ => .error .valueError
  | _ => .error .typeError

/-- The values the classification branch assigns to the alert on success. -/
structure Classification where
  severity : SeverityLevel
  team : JVal
  confidence : JVal

/-- The classification call and response handling of `process_alert`
(src/backend/app/workers/tasks.py, lines 66-85), traced statement by
statement: `raise_for_status` raises `requests.HTTPError` (a
`RequestException`) on status ≥ 400; `classification["severity"]` raises
`TypeError` when the body is not a dict and `KeyError` when the key is
absent; `.upper()` raises `AttributeError` on a non-string;
`SeverityLevel[...]` raises `KeyError` on an unknown name; the `"team"` and
`"confidence"` lookups raise `KeyError` when absent; and the subsequent
`logger.info` f-string formats the confidence with `:.2f`. -/
def classify_call (r : MLCallResult) : Except PyErr Classification :=
  match r with
  | .transportError => .error .requestException
  | .response statusCode body =>
      if 400 ≤ statusCode then .error .requestException
      else
        match body with
        | none => .error .valueError
        | some v =>
            match v with
            | .obj fields =>
                match lookupField fields "severity" with
                | none => .error .keyError
                | some sv =>
                    match sv with
                    | .str s =>
                        match severityFromName s.toUpper with
                        | none => .error .keyError
                        | some sev =>
                            match lookupField fields "team" with
                            | none => .error .keyError
                            | some tv =>
                                match lookupField fields "confidence" with
                                | none => .error .keyError
                                | some cv =>
                                    match formatFixed2 cv with
                                    | .error e => .error e
                                    | .ok _ => .ok ⟨sev, tv, cv⟩
                    | _ => .error .attributeError
            | _ => .error .typeError

/-- The enrichment fields the classification step leaves on the alert. -/
structure ClassificationFields where
  severity : SeverityLevel
  predicted_team : JVal
  confidence_score : JVal
  classification_source : String

/-- The `except (requests.RequestException, KeyError, ValueError)` clause:
which raised exceptions the fallback catches.  `TypeError` and
`AttributeError` are not in the tuple. -/
def caughtByFallback : PyErr → Bool
  | .requestException => true
  | .keyError => true
  | .valueError => true
  | .typeError => false
  | .attributeError => false

/-- The fallback values of lines 90-93. -/
def fallbackClassification : ClassificationFields :=
  { severity := .warning
    predicted_team := .str "backend"
    confidence_score := .num 0
    classification_source := "fallback_rule" }

/-- The classification step of `process_alert`: on success assign the ML
values with source `"rule"`; on a caught exception assign the fallback
values and continue; any other exception propagates to the outer handler,
which rolls back and retries the task (line 175) — no fallback, no
continuation. -/
def classification_step (r : MLCallResult) : Except PyErr ClassificationFields :=
  match classify_call r with
  | .ok c =>
      .ok { severity := c.severity
            predicted_team := c.team
            confidence_score := c.confidence
            classification_source := "rule" }
  | .error e =>
      if caughtByFallback e then .ok fallbackClassification else .error e

/-- C6 (amended). When the classification call fails with a caught
exception — transport error or deadline miss, a non-2xx status, a non-JSON
body, a JSON-object body missing one of the `severity`/`team`/`confidence`
keys or naming an unknown severity, or a string confidence that fails the
log formatting — the alert receives severity `warning`, team `"backend"`,
confidence `0.0`, source `"fallback_rule"`, and processing continues; but a
failure that raises an uncaught exception (a JSON body that is not an
object, a non-string severity value, or a null/compound confidence value)
aborts the task for retry instead of applying the fallback. -/
theorem classification_fallback (r : MLCallResult) :
    (∀ e, classify_call r = .error e → caughtByFallback e = true →
      classification_step r = .ok fallbackClassification) ∧
    (∀ e, classify_call r = .error e → caughtByFallback e = false →
      classification_step r = .error e) ∧
    (classification_step .transportError = .ok fallbackClassification) ∧
    (∀ statusCode body, 400 ≤ statusCode →
      classification_step (.response statusCode body) = .ok fallbackClassification) ∧
    (∀ statusCode, statusCode < 400 →
      classification_step (.response statusCode none) = .ok fallbackClassification) ∧
    (∀ statusCode fields, statusCode < 400 → lookupField fields "severity" = none →
      classification_step (.response statusCode (some (.obj fields))) =
        .ok fallbackClassification) := by
  refine ⟨?_, ?_, ?_, ?_, ?_, ?_⟩
  · intro e he hc
    simp [classification_step, he, hc]
  · intro e he hc
    simp [classification_step, he, hc]
  · rfl
  · intro statusCode body h
    simp [classification_step, classify_call, h, caughtByFallback]
  · intro statusCode h
    simp [classification_step, classify_call, Nat.not_le.mpr h, caughtByFallback]
  · intro statusCode fields h hk
    simp [classification_step, classify_call, Nat.not_le.mpr h, hk, caughtByFallback]

/-- Witness for C6 at concrete inputs: a 500 response and a 200 response with
an empty JSON object both produce the fallback enrichment. -/
theorem classification_fallback_witness :
    classification_step (.response 500 none) = .ok fallbackClassification ∧
    classification_step (.response 200 (some (.obj []))) = .ok fallbackClassification := by
  have h1 := (classification_fallback (.response 500 none)).2.2.2.1 500 none (by decide)
  have h2 := (classification_fallback
    (.response 200 (some (.obj [])))).2.2.2.2.2 200 [] (by decide) rfl
  exact ⟨h1, h2⟩

/-- Counterexample to C6 as stated: a 200 response whose body is valid JSON
but not an object ("malformed body") raises `TypeError` at
`classification["severity"]`, which the `except` clause does not list — the
step propagates the exception (the task retries) instead of assigning the
fallback classification. -/
theorem classification_malformed_body_counterexample :
    classification_step (.response 200 (some (.arr 0))) = .error .typeError ∧
    (.error .typeError : Except PyErr ClassificationFields) ≠
      .ok fallbackClassification := by
  constructor
  · rfl
  · intro h
    exact Except.noConfusion h

/-! ## Embedder (src/backend/app/services/embeddings.py) -/

/-- The `EMBEDDING_DIM = 384`. -/
def EMBEDDING_DIM : Nat := 384

/-- The `_STOPWORDS`. -/
def _STOPWORDS : List String := ["services", "service", "incident"]

/-- A character of the token class `[a-z0-9_]`. -/
def isTokenChar (c : Char) : Bool :=
  (Char.ofNat 97 ≤ c && c ≤ Char.ofNat 122) || c.isDigit || c == Char.ofNat 95

/-- Python `str.lower` (`String.toLower`), written character-wise. -/
def pyLower (s : String) : String := String.mk (s.toList.map Char.toLower)

/-- The `_tokens`: `findall` of `[a-z0-9_]+` over the lower-cased text — the
maximal runs of token characters — with stopwords dropped. -/
def _tokens (text : String) : List String :=
  ((((pyLower text).toList.splitOnP (fun c => !isTokenChar c)).filter
      (fun cs => cs ≠ [])).map (fun cs => String.mk cs)).filter
    (fun t => !(_STOPWORDS.contains t))

/-- Value of a lowercase hex digit, as `int(s, 16)` reads one. -/
def hexDigitVal (c : Char) : Nat :=
  if c.isDigit then c.toNat - 48 else c.toNat - 87

/-- The `int(s, 16)` on a lowercase hex string. -/
def hexStrToNat (s : String) : Nat :=
  s.toList.foldl (fun acc c => 16 * acc + hexDigitVal c) 0

/-- The `_hash_token`: bucket index from the first 8 hex digits of the digest mod
`dim`, sign from the parity of the 9th.  `md5hex` stands for
`hashlib.md5(token.encode()).hexdigest()`, an external library function
modelled as a parameter (always a 32-character lowercase hex string). -/
def _hash_token (md5hex : String → String) (token : String) (dim : Nat) :
    Nat × Int :=
  let digest := md5hex token
  let idx := hexStrToNat (String.mk (digest.toList.take 8)) % dim
  let sign : Int :=
    if hexStrToNat (String.mk ((digest.toList.drop 8).take 1)) % 2 == 0 then 1
    else -1
  (idx, sign)

/-- The accumulation loop of `embed_text`: `vec[idx] += sign` over the
tokens, starting from the zero vector.  The entries stay integral. -/
def embed_accum (md5hex : String → String) (text : String) (dim : Nat) :
    List Int :=
  (_tokens text).foldl
    (fun vec token =>
      let h := _hash_token md5hex token dim
      vec.set h.1 (vec.getD h.1 0 + h.2))
    (List.replicate dim 0)

/-- Sum of squared entries of the accumulated vector. -/
def sumSquares (l : List Int) : Int := (l.map (fun v => v * v)).sum

/-- The `embed_text` (src/backend/app/services/embeddings.py, lines 31-43) in
exact real arithmetic: the accumulated vector, L2-normalized unless it is
zero.  The source tests `norm == 0` with `norm = sqrt(sum v²)`; since the
sum of squares is nonnegative that test is equivalent to `sumSquares = 0`,
and the division is by `sqrt` of the sum of squares. -/
noncomputable def embed_text (md5hex : String → String) (text : String)
    (dim : Nat) : List ℝ :=
  let vec := embed_accum md5hex text dim
  if sumSquares vec = 0 then vec.map (fun v : Int => (v : ℝ))
  else vec.map (fun v : Int => (v : ℝ) / Real.sqrt ((sumSquares vec : Int) : ℝ))

/-- Euclidean norm of a real vector. -/
noncomputable def l2norm (v : List ℝ) : ℝ :=
  Real.sqrt ((v.map (fun x => x * x)).sum)

lemma intsum_sq_cast (l : List Int) :
    ((l.map (fun v : Int => (v : ℝ))).map (fun x => x * x)).sum =
      (((l.map (fun v => v * v)).sum : Int) : ℝ) := by
  induction l with
  | nil => simp
  | cons a t ih =>
      rw [List.map_cons, List.map_cons, List.sum_cons, List.map_cons,
        List.sum_cons, ih, Int.cast_add, Int.cast_mul]

lemma intsum_sq_div (l : List Int) (c : ℝ) :
    ((l.map (fun v : Int => (v : ℝ) / c)).map (fun x => x * x)).sum =
      (((l.map (fun v => v * v)).sum : Int) : ℝ) / (c * c) := by
  induction l with
  | nil => simp
  | cons a t ih =>
      rw [List.map_cons, List.map_cons, List.sum_cons, List.map_cons,
        List.sum_cons, ih, div_mul_div_comm, div_add_div_same,
        Int.cast_add, Int.cast_mul]

lemma sumSquares_nonneg (l : List Int) : 0 ≤ sumSquares l := by
  unfold sumSquares
  apply List.sum_nonneg
  intro x hx
  obtain ⟨v, -, rfl⟩ := List.mem_map.mp hx
  exact mul_self_nonneg v

lemma embed_accum_length (md5hex : String → String) (text : String) (dim : Nat) :
    (embed_accum md5hex text dim).length = dim := by
  unfold embed_accum
  suffices h : ∀ (ts : List String) (vec : List Int),
      (ts.foldl (fun vec token =>
        let h := _hash_token md5hex token dim
        vec.set h.1 (vec.getD h.1 0 + h.2)) vec).length = vec.length by
    simpa using h (_tokens text) (List.replicate dim 0)
  intro ts
  induction ts with
  | nil => intro vec; rfl
  | cons a t ih =>
      intro vec
      simp only [List.foldl_cons, ih, List.length_set]

/-- C7. For every input text (and every digest function the external md5
could be), `embed_text` returns a vector of dimension 384 whose L2 norm is 0
or 1: the signed bag-of-words accumulation is L2-normalized, and the zero
vector is returned as-is. -/
theorem embed_text_unit_norm (md5hex : String → String) (text : String) :
    (embed_text md5hex text EMBEDDING_DIM).length = 384 ∧
    (l2norm (embed_text md5hex text EMBEDDING_DIM) = 0 ∨
      l2norm (embed_text md5hex text EMBEDDING_DIM) = 1) := by
  have hsum_eq : ((embed_accum md5hex text EMBEDDING_DIM).map (fun v => v * v)).sum =
      sumSquares (embed_accum md5hex text EMBEDDING_DIM) := rfl
  constructor
  · unfold embed_text
    by_cases h : sumSquares (embed_accum md5hex text EMBEDDING_DIM) = 0
    · rw [if_pos h, List.length_map, embed_accum_length]
      rfl
    · rw [if_neg h, List.length_map, embed_accum_length]
      rfl
  · by_cases h : sumSquares (embed_accum md5hex text EMBEDDING_DIM) = 0
    · left
      unfold embed_text
      rw [if_pos h]
      unfold l2norm
      rw [intsum_sq_cast, hsum_eq, h]
      norm_num
    · right
      have hnn := sumSquares_nonneg (embed_accum md5hex text EMBEDDING_DIM)
      have hpos : (0 : ℝ) <
          ((sumSquares (embed_accum md5hex text EMBEDDING_DIM) : Int) : ℝ) := by
        exact_mod_cast lt_of_le_of_ne hnn (Ne.symm h)
      unfold embed_text
      rw [if_neg h]
      unfold l2norm
      rw [intsum_sq_div, Real.mul_self_sqrt hpos.le, hsum_eq,
        div_self (ne_of_gt hpos), Real.sqrt_one]

/-! ## Summarize endpoint cache (src/backend/app/api/incidents.py, lines
235-289, over src/backend/app/services/incident_summaries.py) -/

/-- The persisted summary columns of an incident (each nullable). -/
structure SummaryState where
  summary : Option String
  summary_citations : Option (List String)
  next_steps : Option (List String)
deriving DecidableEq, Repr

/-- The guard `incident.summary and incident.next_steps` of the cached
branch, under Python truthiness: a null or empty summary, or null or empty
next-steps list, counts as no cached summary. -/
def cachedSummaryPresent (st : SummaryState) : Bool :=
  (match st.summary with
   | some s => s != ""
   | none => false) &&
  (match st.next_steps with
   | some l => !l.isEmpty
   | none => false)

/-- The triple `summarize_incident` computes and persists (summary text,
citations, next steps); its retrieval-dependent computation is abstracted as
an input to the endpoint. -/
structure SummarizeComputed where
  summary : String
  citations : List String
  next_steps : List String
deriving DecidableEq, Repr

/-- The summarize endpoint's 200 body (the serialized incident aside). -/
structure SummarizeResponse where
  summary : String
  citations : List String
  next_steps : List String
  cached : Bool
deriving DecidableEq, Repr

/-- The `summarize_incident_endpoint` (src/backend/app/api/incidents.py, lines
235-289) for an existing incident: the cached branch returns the persisted
values (`summary_citations or []`) with `cached=true` and runs no
recomputation; otherwise `summarize_incident` recomputes, persists its
result overwriting the previous values, and the endpoint returns it with
`cached=false`.  The result is (response, new persisted state, whether
`summarize_incident` ran). -/
def summarize_incident_endpoint (st : SummaryState) (force : Bool)
    (computed : SummarizeComputed) : SummarizeResponse × SummaryState × Bool :=
  if cachedSummaryPresent st && !force then
    ({ summary := st.summary.getD ""
       citations := st.summary_citations.getD []
       next_steps := st.next_steps.getD []
       cached := true }, st, false)
  else
    ({ summary := computed.summary
       citations := computed.citations
       next_steps := computed.next_steps
       cached := false },
     { summary := some computed.summary
       summary_citations := some computed.citations
       next_steps := some computed.next_steps }, true)

/-- C9. Without `force` and with a cached summary present, the endpoint
returns the persisted summary, citations and next-steps verbatim with
`cached=true`, leaves the persisted state untouched, and performs no
recomputation; with `force`, or when no cached summary is present, it
recomputes, persists the computed values overwriting the previous ones, and
returns them with `cached=false`. -/
theorem summarize_endpoint_cache (st : SummaryState) (force : Bool)
    (computed : SummarizeComputed) :
    (cachedSummaryPresent st = true → force = false →
      summarize_incident_endpoint st force computed =
        ({ summary := st.summary.getD ""
           citations := st.summary_citations.getD []
           next_steps := st.next_steps.getD []
           cached := true }, st, false)) ∧
    (force = true ∨ cachedSummaryPresent st = false →
      summarize_incident_endpoint st force computed =
        ({ summary := computed.summary
           citations := computed.citations
           next_steps := computed.next_steps
           cached := false },
         { summary := some computed.summary
           summary_citations := some computed.citations
           next_steps := some computed.next_steps }, true)) := by
  constructor
  · intro hc hf
    simp [summarize_incident_endpoint, hc, hf]
  · intro h
    rcases h with hf | hc
    · simp [summarize_incident_endpoint, hf]
    · simp [summarize_incident_endpoint, hc]

/-- Witness for C9 at concrete inputs: a cache hit without force, and a
forced recomputation on the same state. -/
theorem summarize_endpoint_cache_witness :
    summarize_incident_endpoint
      ⟨some "old summary", some ["c1"], some ["step 1"]⟩ false
      ⟨"new summary", ["c2"], ["step 2"]⟩ =
      (⟨"old summary", ["c1"], ["step 1"], true⟩,
       ⟨some "old summary", some ["c1"], some ["step 1"]⟩, false) ∧
    summarize_incident_endpoint
      ⟨some "old summary", some ["c1"], some ["step 1"]⟩ true
      ⟨"new summary", ["c2"], ["step 2"]⟩ =
      (⟨"new summary", ["c2"], ["step 2"], false⟩,
       ⟨some "new summary", some ["c2"], some ["step 2"]⟩, true) := by
  have h1 := (summarize_endpoint_cache
    ⟨some "old summary", some ["c1"], some ["step 1"]⟩ false
    ⟨"new summary", ["c2"], ["step 2"]⟩).1 (by decide) rfl
  have h2 := (summarize_endpoint_cache
    ⟨some "old summary", some ["c1"], some ["step 1"]⟩ true
    ⟨"new summary", ["c2"], ["step 2"]⟩).2 (Or.inl rfl)
  exact ⟨h1, h2⟩

/-! ## Hybrid retrieval (src/backend/app/services/incident_similarity.py)

The configuration constants are fixed at their documented environment
defaults.  The two database queries (pgvector top-`limit` by L2 distance,
full-text top-`limit` by rank) are modelled as explicit input row lists
carrying the distances and rank scores the database would return. -/

/-- The `RAG_VECTOR_WEIGHT` default 0.7. -/
def VECTOR_WEIGHT : ℚ := 7 / 10

/-- The `RAG_KEYWORD_WEIGHT` default 0.3. -/
def KEYWORD_WEIGHT : ℚ := 3 / 10

/-- The `RAG_MIN_SCORE` default 0.1. -/
def MIN_SCORE : ℚ := 1 / 10

/-- The `RAG_MIN_KEYWORD_OVERLAP` default 0.05. -/
def MIN_KEYWORD_OVERLAP : ℚ := 1 / 20

/-- The `RAG_RERANK_TITLE_BOOST` default 0.08. -/
def RERANK_TITLE_BOOST : ℚ := 2 / 25

/-- The `RAG_RERANK_PHRASE_BOOST` default 0.05. -/
def RERANK_PHRASE_BOOST : ℚ := 1 / 20

/-- The `_similarity_score_from_distance`: `1 / (1 + distance)`. -/
def _similarity_score_from_distance (distance : ℚ) : ℚ := 1 / (1 + distance)

/-- The `_hybrid_score`: weighted sum of vector and keyword scores. -/
def _hybrid_score (vector_score keyword_score : ℚ) : ℚ :=
  vector_score * VECTOR_WEIGHT + keyword_score * KEYWORD_WEIGHT

/-- The `jaccard_similarity` over Python sets of tokens. -/
def jaccard_similarity (tokens_a tokens_b : List String) : ℚ :=
  let set_a := tokens_a.toFinset
  let set_b := tokens_b.toFinset
  if set_a = ∅ ∧ set_b = ∅ then 0
  else ((set_a ∩ set_b).card : ℚ) / ((set_a ∪ set_b).card : ℚ)

/-- Python `needle in hay` on strings (substring containment). -/
def strContains (hay needle : String) : Bool :=
  decide (needle.toList <:+: hay.toList)

/-- The `_rerank_boost`: +0.08 when the lower-cased query is a substring of the
lower-cased title, +0.05 when of the content; empty query (and null or empty
title/content, Python truthiness) contribute nothing. -/
def _rerank_boost (query_text : String) (title content : Option String) : ℚ :=
  if query_text == "" then 0
  else
    let lowered := pyLower query_text
    (if (match title with
         | some t => t != "" && strContains (pyLower t) lowered
         | none => false) then RERANK_TITLE_BOOST else 0) +
    (if (match content with
         | some p => p != "" && strContains (pyLower p) lowered
         | none => false) then RERANK_PHRASE_BOOST else 0)

/-- The `_structured_boost`: +0.05 on equal severities, +0.1 on intersecting
non-empty affected-service sets. -/
def _structured_boost (query candidate : IncidentRow) : ℚ :=
  (if query.severity = candidate.severity then 1 / 20 else 0) +
  (let query_services := query.affected_services.toFinset
   let candidate_services := candidate.affected_services.toFinset
   if query_services ≠ ∅ ∧ candidate_services ≠ ∅ ∧
       query_services ∩ candidate_services ≠ ∅ then 1 / 10 else 0)

/-- The `_passes_relevance`: shared affected service, or token Jaccard overlap at
least the minimum (the boundary admitted). -/
def _passes_relevance (query_tokens candidate_tokens : List String)
    (query_services candidate_services : Finset String)
    (min_token_overlap : ℚ) : Bool :=
  if query_services ≠ ∅ ∧ candidate_services ≠ ∅ ∧
      query_services ∩ candidate_services ≠ ∅ then true
  else decide (min_token_overlap ≤ jaccard_similarity query_tokens candidate_tokens)

/-- The `build_incident_text`: title, then summary and a services line when
truthy, then title and message of the first five alerts when truthy, joined
by newlines with empty parts dropped. -/
def build_incident_text (incident : IncidentRow) (alerts : List AlertRec) : String :=
  let parts :=
    [incident.title] ++
    (match incident.summary with
     | some s => [s]
     | none => []) ++
    (if incident.affected_services.isEmpty then []
     else ["services: " ++ String.intercalate ", " incident.affected_services]) ++
    ((alerts.take 5).flatMap (fun a =>
      (if a.title != "" then [a.title] else []) ++
      (if a.message != "" then [a.message] else [])))
  String.intercalate "\n" (parts.filter (fun p => p != ""))

/-- Loop body of the pgvector branch of `find_similar_incidents` (lines
138-160): relevance gate, hybrid score plus rerank and structural boosts,
cap to 1.0, then the floor check on the capped score. -/
def incident_vector_entry (incident : IncidentRow) (alerts : List AlertRec)
    (min_score min_keyword_overlap : ℚ) (r : IncidentRow × ℚ) :
    Option (IncidentRow × ℚ) :=
  let query_text := build_incident_text incident alerts
  let query_tokens := _tokens query_text
  let query_services := incident.affected_services.toFinset
  let candidate_tokens := _tokens (build_incident_text r.1 [])
  let candidate_services := r.1.affected_services.toFinset
  if !(_passes_relevance query_tokens candidate_tokens query_services
      candidate_services min_keyword_overlap) then none
  else
    let vector_score := _similarity_score_from_distance r.2
    let keyword_score := jaccard_similarity query_tokens candidate_tokens
    let score := _hybrid_score vector_score keyword_score
      + _rerank_boost query_text (some r.1.title) r.1.summary
      + _structured_boost incident r.1
    let capped := min score 1
    if min_score ≤ capped then some (r.1, capped) else none

/-- Loop body of the keyword fallback of `find_similar_incidents` (lines
169-187): as above with vector score 0. -/
def incident_fallback_entry (incident : IncidentRow) (alerts : List AlertRec)
    (min_score min_keyword_overlap : ℚ) (candidate : IncidentRow) :
    Option (IncidentRow × ℚ) :=
  let query_text := build_incident_text incident alerts
  let query_tokens := _tokens query_text
  let query_services := incident.affected_services.toFinset
  let candidate_tokens := _tokens (build_incident_text candidate [])
  let candidate_services := candidate.affected_services.toFinset
  if !(_passes_relevance query_tokens candidate_tokens query_services
      candidate_services min_keyword_overlap) then none
  else
    let keyword_score := jaccard_similarity query_tokens candidate_tokens
    let score := _hybrid_score 0 keyword_score
      + _rerank_boost query_text (some candidate.title) candidate.summary
      + _structured_boost incident candidate
    let capped := min score 1
    if min_score ≤ capped then some (candidate, capped) else none

/-- The keyword fallback pass of `find_similar_incidents` (lines 167-192):
every other incident, gated and scored, sorted by score descending (Python's
stable `sort(reverse=True)`), truncated to `limit`. -/
def find_similar_incidents_fallback (incident : IncidentRow)
    (alerts : List AlertRec) (allIncidents : List IncidentRow) (limit : Nat)
    (min_score min_keyword_overlap : ℚ) : List (IncidentRow × ℚ) :=
  (((allIncidents.filter (fun c => c.id ≠ incident.id)).filterMap
      (incident_fallback_entry incident alerts min_score min_keyword_overlap)).mergeSort
    (fun a b => decide (b.2 ≤ a.2))).take limit

/-- The `find_similar_incidents` (lines 111-193).  `vectorAvailable` models
`HAS_PGVECTOR` with the vector query succeeding; `rows` are the rows that
query returns — the incidents other than the subject with non-null
embeddings, paired with their L2 distances, ordered by distance ascending
and already limited to `limit` by the SQL `LIMIT`.  The vector-path results
are returned in that row order, without re-sorting; when the vector path is
unavailable or admits no candidate, the keyword fallback runs. -/
def find_similar_incidents (incident : IncidentRow) (alerts : List AlertRec)
    (vectorAvailable : Bool) (rows : List (IncidentRow × ℚ))
    (allIncidents : List IncidentRow) (limit : Nat)
    (min_score min_keyword_overlap : ℚ) : List (IncidentRow × ℚ) :=
  if vectorAvailable then
    let results := rows.filterMap
      (incident_vector_entry incident alerts min_score min_keyword_overlap)
    if results.isEmpty then
      find_similar_incidents_fallback incident alerts allIncidents limit
        min_score min_keyword_overlap
    else results
  else
    find_similar_incidents_fallback incident alerts allIncidents limit
      min_score min_keyword_overlap

/-- Runbook chunk row with the fields retrieval reads. -/
structure RunbookChunkRec where
  id : Nat
  title : Option String
  content : Option String
  source_document : String
  chunk_index : Nat
deriving DecidableEq, Repr

/-- Insertion-order deduplication, as a Python dict built with `setdefault`
iterates its keys. -/
def dedupKeepFirst : List Nat → List Nat
  | [] => []
  | a :: as => a :: dedupKeepFirst (as.filter (fun x => x ≠ a))
termination_by l => l.length
decreasing_by
  simp only [List.length_cons]
  exact Nat.lt_succ_of_le (List.length_filter_le _ _)

/-- Loop body of the no-candidates fallback of `find_similar_runbook_chunks`
(lines 238-246): keyword-only score plus rerank boosts, floor check on the
raw score — this branch applies no 1.0 cap. -/
def runbook_fallback_entry (query_text : String) (min_score : ℚ)
    (chunk : RunbookChunkRec) : Option (RunbookChunkRec × ℚ) :=
  let chunk_text := ((chunk.title.getD "") ++ " " ++ (chunk.content.getD "")).trim
  let keyword_score := jaccard_similarity (_tokens query_text) (_tokens chunk_text)
  let score := _hybrid_score 0 keyword_score
    + _rerank_boost query_text chunk.title chunk.content
  if score < min_score then none else some (chunk, score)

/-- Loop body over the merged candidate dict of `find_similar_runbook_chunks`
(lines 253-260): the chunk record comes from the first row that introduced
the id (`setdefault`), each score from the last row carrying the id; floor
check on the raw combined score, then the 1.0 cap on the stored score. -/
def runbook_ranked_entry (query_text : String) (min_score : ℚ)
    (vecRows bmRows : List (RunbookChunkRec × ℚ)) (i : Nat) :
    Option (RunbookChunkRec × ℚ) :=
  match (vecRows ++ bmRows).find? (fun r => r.1.id == i) with
  | none => none
  | some entry =>
      let vector_score :=
        match vecRows.reverse.find? (fun r => r.1.id == i) with
        | some r => _similarity_score_from_distance r.2
        | none => 0
      let bm25_score :=
        match bmRows.reverse.find? (fun r => r.1.id == i) with
        | some r => r.2
        | none => 0
      let chunk := entry.1
      let score := _hybrid_score vector_score bm25_score
        + _rerank_boost query_text chunk.title chunk.content
      if score < min_score then none else some (chunk, min score 1)

/-- The `find_similar_runbook_chunks` (lines 196-266).  `vecRows` are the rows of
the pgvector query (chunks of source `runbooks` with non-null embedding,
with L2 distances, distance ascending, at most `limit`); `bmRows` the rows
of the full-text query (with `ts_rank_cd` scores, rank descending, at most
`limit`); an unavailable or failing query contributes the empty list.  When
both are empty the in-memory Jaccard fallback over `allChunks` (the runbook
chunks of source `runbooks`) runs. -/
def find_similar_runbook_chunks (query_text : String)
    (vecRows bmRows : List (RunbookChunkRec × ℚ))
    (allChunks : List RunbookChunkRec) (limit : Nat) (min_score : ℚ) :
    List (RunbookChunkRec × ℚ) :=
  let ids := dedupKeepFirst ((vecRows ++ bmRows).map (fun r => r.1.id))
  if ids.isEmpty then
    ((allChunks.filterMap (runbook_fallback_entry query_text min_score)).mergeSort
      (fun a b => decide (b.2 ≤ a.2))).take limit
  else
    ((ids.filterMap (runbook_ranked_entry query_text min_score vecRows bmRows)).mergeSort
      (fun a b => decide (b.2 ≤ a.2))).take limit

lemma jaccard_nonneg (a b : List String) : 0 ≤ jaccard_similarity a b := by
  unfold jaccard_similarity
  simp only []
  split_ifs
  · exact le_refl 0
  · exact div_nonneg (Nat.cast_nonneg _) (Nat.cast_nonneg _)

lemma jaccard_le_one (a b : List String) : jaccard_similarity a b ≤ 1 := by
  unfold jaccard_similarity
  simp only []
  split_ifs with h
  · norm_num
  · have hsub : a.toFinset ∩ b.toFinset ⊆ a.toFinset ∪ b.toFinset :=
      Finset.inter_subset_left.trans Finset.subset_union_left
    have hcard := Finset.card_le_card hsub
    have hne : a.toFinset ∪ b.toFinset ≠ ∅ := by
      intro he
      exact h ⟨(Finset.union_eq_empty.mp he).1, (Finset.union_eq_empty.mp he).2⟩
    have hpos : 0 < (a.toFinset ∪ b.toFinset).card :=
      Finset.card_pos.mpr (Finset.nonempty_iff_ne_empty.mpr hne)
    rw [div_le_one (by exact_mod_cast hpos)]
    exact_mod_cast hcard

lemma rerank_boost_bounds (q : String) (t c : Option String) :
    0 ≤ _rerank_boost q t c ∧ _rerank_boost q t c ≤ 13 / 100 := by
  unfold _rerank_boost RERANK_TITLE_BOOST RERANK_PHRASE_BOOST
  simp only []
  split
  · norm_num
  · constructor
    · apply add_nonneg <;> (split <;> norm_num)
    · split <;> split <;> norm_num

lemma hybrid0_le (k : ℚ) (hk : k ≤ 1) : _hybrid_score 0 k ≤ 3 / 10 := by
  unfold _hybrid_score VECTOR_WEIGHT KEYWORD_WEIGHT
  linarith

lemma incident_vector_entry_bounds (incident : IncidentRow)
    (alerts : List AlertRec) (min_score min_keyword_overlap : ℚ)
    (r : IncidentRow × ℚ) (p : IncidentRow × ℚ)
    (h : incident_vector_entry incident alerts min_score min_keyword_overlap r =
      some p) : min_score ≤ p.2 ∧ p.2 ≤ 1 := by
  unfold incident_vector_entry at h
  simp only [] at h
  split at h
  · simp at h
  · split at h
    case isTrue hc =>
      cases h
      exact ⟨hc, min_le_right _ _⟩
    case isFalse => simp at h

lemma incident_fallback_entry_bounds (incident : IncidentRow)
    (alerts : List AlertRec) (min_score min_keyword_overlap : ℚ)
    (candidate : IncidentRow) (p : IncidentRow × ℚ)
    (h : incident_fallback_entry incident alerts min_score min_keyword_overlap
      candidate = some p) : min_score ≤ p.2 ∧ p.2 ≤ 1 := by
  unfold incident_fallback_entry at h
  simp only [] at h
  split at h
  · simp at h
  · split at h
    case isTrue hc =>
      cases h
      exact ⟨hc, min_le_right _ _⟩
    case isFalse => simp at h

lemma runbook_ranked_entry_bounds (query_text : String) (min_score : ℚ)
    (vecRows bmRows : List (RunbookChunkRec × ℚ)) (i : Nat)
    (p : RunbookChunkRec × ℚ) (hms : min_score ≤ 1)
    (h : runbook_ranked_entry query_text min_score vecRows bmRows i = some p) :
    min_score ≤ p.2 ∧ p.2 ≤ 1 := by
  unfold runbook_ranked_entry at h
  split at h
  · simp at h
  · simp only [] at h
    split at h
    case isTrue => simp at h
    case isFalse hns =>
      cases h
      exact ⟨le_min (le_of_not_lt hns) hms, min_le_right _ _⟩

lemma runbook_fallback_entry_bounds (query_text : String) (min_score : ℚ)
    (chunk : RunbookChunkRec) (p : RunbookChunkRec × ℚ)
    (h : runbook_fallback_entry query_text min_score chunk = some p) :
    min_score ≤ p.2 ∧ p.2 ≤ 1 := by
  unfold runbook_fallback_entry at h
  simp only [] at h
  split at h
  case isTrue => simp at h
  case isFalse hns =>
    cases h
    constructor
    · exact le_of_not_lt hns
    · have h1 := hybrid0_le _ (jaccard_le_one (_tokens query_text)
        (_tokens (((chunk.title.getD "") ++ " " ++ (chunk.content.getD "")).trim)))
      have h2 := (rerank_boost_bounds query_text chunk.title chunk.content).2
      simp only []
      linarith

lemma take_mergeSort_sorted {β : Type} (l : List (β × ℚ)) (n : Nat) :
    ((l.mergeSort (fun a b => decide (b.2 ≤ a.2))).take n).Pairwise
      (fun a b => b.2 ≤ a.2) := by
  have hs := @List.sorted_mergeSort (β × ℚ)
    (fun a b => decide (b.2 ≤ a.2))
    (fun a b c hab hbc => by
      simp only [decide_eq_true_eq] at *
      exact le_trans hbc hab)
    (fun a b => by rcases le_total a.2 b.2 with h | h <;> simp [h])
    l
  have hp : (l.mergeSort (fun a b => decide (b.2 ≤ a.2))).Pairwise
      (fun a b => b.2 ≤ a.2) :=
    hs.imp (fun h => of_decide_eq_true h)
  exact hp.sublist (List.take_sublist _ _)

lemma sorted_take_block {β : Type} (limit : Nat) (min_score : ℚ)
    (L : List (β × ℚ)) (hL : ∀ p ∈ L, min_score ≤ p.2 ∧ p.2 ≤ 1) :
    ((L.mergeSort (fun a b => decide (b.2 ≤ a.2))).take limit).length ≤ limit ∧
    (∀ p ∈ (L.mergeSort (fun a b => decide (b.2 ≤ a.2))).take limit,
      min_score ≤ p.2 ∧ p.2 ≤ 1) ∧
    ((L.mergeSort (fun a b => decide (b.2 ≤ a.2))).take limit).Pairwise
      (fun a b => b.2 ≤ a.2) := by
  refine ⟨List.length_take_le _ _, ?_, take_mergeSort_sorted _ _⟩
  intro p hp
  exact hL p (List.mem_mergeSort.mp (List.take_subset _ _ hp))

/-- C5 (amended). Every retrieval result respects the score floor (a
candidate exactly at the floor is admitted) and the 1.0 cap, and at most
`limit` results are returned; the runbook-chunk search returns its list
sorted by score descending, as does the similar-incident search on its
keyword fallback path — but the similar-incident pgvector path returns its
results in the database's distance order without re-sorting by the combined
score, so its list need not be sorted by score descending. -/
theorem retrieval_floor_cap_limit_sorted (query_text : String)
    (vecRows bmRows : List (RunbookChunkRec × ℚ))
    (allChunks : List RunbookChunkRec) (incident : IncidentRow)
    (alerts : List AlertRec) (vectorAvailable : Bool)
    (rows : List (IncidentRow × ℚ)) (allIncidents : List IncidentRow)
    (limit : Nat) (min_score min_keyword_overlap : ℚ)
    (hms : min_score ≤ 1) (hrows : rows.length ≤ limit) :
    ((find_similar_runbook_chunks query_text vecRows bmRows allChunks limit
        min_score).length ≤ limit ∧
     (∀ p ∈ find_similar_runbook_chunks query_text vecRows bmRows allChunks
        limit min_score, min_score ≤ p.2 ∧ p.2 ≤ 1) ∧
     (find_similar_runbook_chunks query_text vecRows bmRows allChunks limit
        min_score).Pairwise (fun a b => b.2 ≤ a.2)) ∧
    ((find_similar_incidents incident alerts vectorAvailable rows allIncidents
        limit min_score min_keyword_overlap).length ≤ limit ∧
     (∀ p ∈ find_similar_incidents incident alerts vectorAvailable rows
        allIncidents limit min_score min_keyword_overlap,
        min_score ≤ p.2 ∧ p.2 ≤ 1) ∧
     (find_similar_incidents_fallback incident alerts allIncidents limit
        min_score min_keyword_overlap).Pairwise (fun a b => b.2 ≤ a.2) ∧
     (vectorAvailable = false →
       (find_similar_incidents incident alerts vectorAvailable rows
          allIncidents limit min_score min_keyword_overlap).Pairwise
         (fun a b => b.2 ≤ a.2))) := by
  have hfb : ∀ p ∈ find_similar_incidents_fallback incident alerts allIncidents
      limit min_score min_keyword_overlap, min_score ≤ p.2 ∧ p.2 ≤ 1 := by
    intro p hp
    unfold find_similar_incidents_fallback at hp
    have hp2 := List.mem_mergeSort.mp (List.take_subset _ _ hp)
    obtain ⟨a, -, hf⟩ := List.mem_filterMap.mp hp2
    exact incident_fallback_entry_bounds incident alerts min_score
      min_keyword_overlap a p hf
  have hfb_block := sorted_take_block limit min_score
    ((allIncidents.filter (fun c => c.id ≠ incident.id)).filterMap
      (incident_fallback_entry incident alerts min_score min_keyword_overlap))
    (by
      intro p hp
      obtain ⟨a, -, hf⟩ := List.mem_filterMap.mp hp
      exact incident_fallback_entry_bounds incident alerts min_score
        min_keyword_overlap a p hf)
  constructor
  · by_cases hids : (dedupKeepFirst ((vecRows ++ bmRows).map
        (fun r => r.1.id))).isEmpty = true
    · have heq : find_similar_runbook_chunks query_text vecRows bmRows allChunks
          limit min_score =
          ((allChunks.filterMap (runbook_fallback_entry query_text
            min_score)).mergeSort (fun a b => decide (b.2 ≤ a.2))).take limit := by
        simp only [find_similar_runbook_chunks]
        rw [if_pos hids]
      rw [heq]
      refine sorted_take_block limit min_score _ ?_
      intro p hp
      obtain ⟨a, -, hf⟩ := List.mem_filterMap.mp hp
      exact runbook_fallback_entry_bounds query_text min_score a p hf
    · have heq : find_similar_runbook_chunks query_text vecRows bmRows allChunks
          limit min_score =
          (((dedupKeepFirst ((vecRows ++ bmRows).map (fun r => r.1.id))).filterMap
            (runbook_ranked_entry query_text min_score vecRows bmRows)).mergeSort
              (fun a b => decide (b.2 ≤ a.2))).take limit := by
        simp only [find_similar_runbook_chunks]
        rw [if_neg hids]
      rw [heq]
      refine sorted_take_block limit min_score _ ?_
      intro p hp
      obtain ⟨a, -, hf⟩ := List.mem_filterMap.mp hp
      exact runbook_ranked_entry_bounds query_text min_score vecRows bmRows a p
        hms hf
  · cases vectorAvailable with
    | false =>
        have heq : find_similar_incidents incident alerts false rows allIncidents
            limit min_score min_keyword_overlap =
            find_similar_incidents_fallback incident alerts allIncidents limit
              min_score min_keyword_overlap := by
          simp [find_similar_incidents]
        rw [heq]
        unfold find_similar_incidents_fallback
        exact ⟨hfb_block.1, hfb_block.2.1, hfb_block.2.2, fun _ => hfb_block.2.2⟩
    | true =>
        by_cases hres : (rows.filterMap (incident_vector_entry incident alerts
            min_score min_keyword_overlap)).isEmpty = true
        · have heq : find_similar_incidents incident alerts true rows allIncidents
              limit min_score min_keyword_overlap =
              find_similar_incidents_fallback incident alerts allIncidents limit
                min_score min_keyword_overlap := by
            simp only [find_similar_incidents]
            rw [if_pos trivial, if_pos hres]
          rw [heq]
          unfold find_similar_incidents_fallback
          exact ⟨hfb_block.1, hfb_block.2.1, hfb_block.2.2, fun h => by simp at h⟩
        · have heq : find_similar_incidents incident alerts true rows allIncidents
              limit min_score min_keyword_overlap =
              rows.filterMap (incident_vector_entry incident alerts min_score
                min_keyword_overlap) := by
            simp only [find_similar_incidents]
            rw [if_pos trivial, if_neg hres]
          rw [heq]
          refine ⟨le_trans (List.length_filterMap_le _ _) hrows, ?_, ?_, ?_⟩
          · intro p hp
            obtain ⟨a, -, hf⟩ := List.mem_filterMap.mp hp
            exact incident_vector_entry_bounds incident alerts min_score
              min_keyword_overlap a p hf
          · unfold find_similar_incidents_fallback
            exact hfb_block.2.2
          · intro h
            simp at h

/-- Witness for C5 on concrete inputs: the runbook search with no index rows
over a single chunk, and the similar-incident keyword fallback over one
candidate, both satisfy the cap, floor, limit and ordering properties. -/
theorem retrieval_floor_cap_limit_sorted_witness :
    ((find_similar_runbook_chunks "pool" [] []
        [⟨1, some "Pooling instructions", some "pool usage is high", "rb.md", 0⟩]
        5 (1 / 10)).Pairwise (fun a b => b.2 ≤ a.2)) ∧
    (∀ p ∈ find_similar_runbook_chunks "pool" [] []
        [⟨1, some "Pooling instructions", some "pool usage is high", "rb.md", 0⟩]
        5 (1 / 10), (1 : ℚ) / 10 ≤ p.2 ∧ p.2 ≤ 1) ∧
    (find_similar_incidents ⟨1, "db down", .warning, "t", .open', ["db"], none,
        0, 0⟩ [] false [] [⟨2, "db down", .error, "t", .open', ["db"], none, 0,
        0⟩] 5 (1 / 10) (1 / 20)).length ≤ 5 := by
  have h := retrieval_floor_cap_limit_sorted "pool" [] []
    [⟨1, some "Pooling instructions", some "pool usage is high", "rb.md", 0⟩]
    ⟨1, "db down", .warning, "t", .open', ["db"], none, 0, 0⟩ [] false []
    [⟨2, "db down", .error, "t", .open', ["db"], none, 0, 0⟩] 5 (1 / 10)
    (1 / 20) (by norm_num) (by decide)
  exact ⟨h.1.2.2, h.1.2.1, h.2.1⟩

/-- Counterexample to C5 as stated: on the pgvector path of
`find_similar_incidents`, two candidates at distances 1 and 1.01 from the
subject — the farther one sharing the subject's severity and so earning the
+0.05 structural boost — come back in distance order with scores
[0.75, ≈0.798], which is not sorted by combined score descending. -/
theorem retrieval_vector_path_unsorted_counterexample :
    find_similar_incidents
      ⟨1, "db down", .warning, "t", .open', ["db"], none, 0, 0⟩ [] true
      [(⟨2, "db down", .error, "t", .open', ["db"], none, 0, 0⟩, 1),
       (⟨3, "db down", .warning, "t", .open', ["db"], none, 0, 0⟩, 101 / 100)]
      [] 5 (1 / 10) (1 / 20) =
      [(⟨2, "db down", .error, "t", .open', ["db"], none, 0, 0⟩, 3 / 4),
       (⟨3, "db down", .warning, "t", .open', ["db"], none, 0, 0⟩, 3209 / 4020)] ∧
    ¬ (find_similar_incidents
      ⟨1, "db down", .warning, "t", .open', ["db"], none, 0, 0⟩ [] true
      [(⟨2, "db down", .error, "t", .open', ["db"], none, 0, 0⟩, 1),
       (⟨3, "db down", .warning, "t", .open', ["db"], none, 0, 0⟩, 101 / 100)]
      [] 5 (1 / 10) (1 / 20)).Pairwise (fun a b => b.2 ≤ a.2) := by
  have htok : _tokens "db down\nservices: db" = ["db", "down", "db"] := by decide
  have hjac : jaccard_similarity ["db", "down", "db"] ["db", "down", "db"] = 1 := by
    unfold jaccard_similarity
    simp only []
    rw [if_neg (by decide),
      show ((["db", "down", "db"].toFinset ∩ ["db", "down", "db"].toFinset).card) = 2
        from by decide,
      show ((["db", "down", "db"].toFinset ∪ ["db", "down", "db"].toFinset).card) = 2
        from by decide]
    norm_num
  have hrb : _rerank_boost "db down\nservices: db" (some "db down") none = 0 := by
    unfold _rerank_boost
    simp only []
    rw [if_neg (by decide), if_neg (by decide), if_neg (by decide)]
    norm_num
  have hgate : _passes_relevance ["db", "down", "db"] ["db", "down", "db"]
      (["db"].toFinset) (["db"].toFinset) (1 / 20) = true := by
    unfold _passes_relevance
    rw [if_pos (by decide)]
  have hA : incident_vector_entry
      ⟨1, "db down", .warning, "t", .open', ["db"], none, 0, 0⟩ [] (1 / 10) (1 / 20)
      (⟨2, "db down", .error, "t", .open', ["db"], none, 0, 0⟩, 1) =
      some (⟨2, "db down", .error, "t", .open', ["db"], none, 0, 0⟩, 3 / 4) := by
    unfold incident_vector_entry
    dsimp only
    rw [show build_incident_text
        ⟨1, "db down", .warning, "t", .open', ["db"], none, 0, 0⟩ [] =
        "db down\nservices: db" from by decide,
      show build_incident_text
        ⟨2, "db down", .error, "t", .open', ["db"], none, 0, 0⟩ [] =
        "db down\nservices: db" from by decide,
      htok, hgate]
    simp only [Bool.not_true]
    rw [if_neg Bool.false_ne_true, hjac, hrb,
      show _structured_boost ⟨1, "db down", .warning, "t", .open', ["db"], none, 0, 0⟩
        ⟨2, "db down", .error, "t", .open', ["db"], none, 0, 0⟩ = 1 / 10 from by
        unfold _structured_boost
        simp only []
        rw [if_neg (by decide), if_pos (by decide)]
        norm_num]
    norm_num [_similarity_score_from_distance, _hybrid_score, VECTOR_WEIGHT,
      KEYWORD_WEIGHT, min_def]
  have hB : incident_vector_entry
      ⟨1, "db down", .warning, "t", .open', ["db"], none, 0, 0⟩ [] (1 / 10) (1 / 20)
      (⟨3, "db down", .warning, "t", .open', ["db"], none, 0, 0⟩, 101 / 100) =
      some (⟨3, "db down", .warning, "t", .open', ["db"], none, 0, 0⟩, 3209 / 4020) := by
    unfold incident_vector_entry
    dsimp only
    rw [show build_incident_text
        ⟨1, "db down", .warning, "t", .open', ["db"], none, 0, 0⟩ [] =
        "db down\nservices: db" from by decide,
      show build_incident_text
        ⟨3, "db down", .warning, "t", .open', ["db"], none, 0, 0⟩ [] =
        "db down\nservices: db" from by decide,
      htok, hgate]
    simp only [Bool.not_true]
    rw [if_neg Bool.false_ne_true, hjac, hrb,
      show _structured_boost ⟨1, "db down", .warning, "t", .open', ["db"], none, 0, 0⟩
        ⟨3, "db down", .warning, "t", .open', ["db"], none, 0, 0⟩ = 3 / 20 from by
        unfold _structured_boost
        simp only []
        rw [if_pos (by decide), if_pos (by decide)]
        norm_num]
    norm_num [_similarity_score_from_distance, _hybrid_score, VECTOR_WEIGHT,
      KEYWORD_WEIGHT, min_def]
  have hfm : ([(⟨2, "db down", .error, "t", .open', ["db"], none, 0, 0⟩, 1),
      (⟨3, "db down", .warning, "t", .open', ["db"], none, 0, 0⟩, 101 / 100)] :
      List (IncidentRow × ℚ)).filterMap
      (incident_vector_entry
        ⟨1, "db down", .warning, "t", .open', ["db"], none, 0, 0⟩ [] (1 / 10) (1 / 20)) =
      [(⟨2, "db down", .error, "t", .open', ["db"], none, 0, 0⟩, 3 / 4),
       (⟨3, "db down", .warning, "t", .open', ["db"], none, 0, 0⟩, 3209 / 4020)] := by
    simp only [List.filterMap_cons, List.filterMap_nil, hA, hB]
  have heval : find_similar_incidents
      ⟨1, "db down", .warning, "t", .open', ["db"], none, 0, 0⟩ [] true
      [(⟨2, "db down", .error, "t", .open', ["db"], none, 0, 0⟩, 1),
       (⟨3, "db down", .warning, "t", .open', ["db"], none, 0, 0⟩, 101 / 100)]
      [] 5 (1 / 10) (1 / 20) =
      [(⟨2, "db down", .error, "t", .open', ["db"], none, 0, 0⟩, 3 / 4),
       (⟨3, "db down", .warning, "t", .open', ["db"], none, 0, 0⟩, 3209 / 4020)] := by
    unfold find_similar_incidents
    rw [if_pos rfl]
    simp only []
    rw [hfm]
    rw [if_neg (by decide)]
  refine ⟨heval, ?_⟩
  rw [heval]
  intro hp
  have h2 := (List.pairwise_cons.mp hp).1
    (⟨3, "db down", .warning, "t", .open', ["db"], none, 0, 0⟩, 3209 / 4020)
    (by simp)
  norm_num at h2
